import Mathlib

/-!
Verification of the MMA-Coach-Assistant analysis client
(`services/geminiService.ts`) against its design specification.

The development shallowly embeds the two functions of the service module:

* `fileToGenerativePart` — the Encoder: reads a `File` with
  `FileReader.readAsDataURL`, splits the resulting data URL at the comma and
  keeps the base64 body, pairing it with the file's declared MIME type.
* `analyzeFights` — the Analysis Client: encodes both videos, builds the
  instructional prompt and the response schema, performs one provider call,
  trims and JSON-parses the response text, and maps a parse failure to a
  fixed user-facing error while logging the offending text.

Browser / platform primitives that the code calls but does not define are
modelled explicitly: base64 encoding (`base64EncodeChunks`) together with a
decoder (`base64DecodeChunks`) for the round-trip law, `String.split`
(`jsSplit`), `String.trim` (`jsTrim`), and `JSON.parse`, which is kept
abstract as a field of the environment record `BrowserEnv`, since the
client only pattern-matches on its success or failure. The asynchronous
effects (file-read outcome, provider-call outcome) are likewise fields of
`BrowserEnv`, so one evaluation of `analyzeFights` corresponds to one run
of the original promise chain.
-/

/-- The standard base64 alphabet, indexed 0–63. -/
def b64Alpha : List Char :=
  "ABCDEFGHIJKLMNOPQRSTUVWXYZabcdefghijklmnopqrstuvwxyz0123456789+/".toList

/-- Character of the base64 alphabet at a 6-bit index. -/
def b64Char (n : Nat) : Char := b64Alpha.getD n 'A'

/-- Index of a character in the base64 alphabet, if any. -/
def b64Index (c : Char) : Option Nat := List.findIdx? (fun d => d == c) b64Alpha

/-- Standard base64 encoding of a byte list, three bytes to four characters,
with `=` padding on a final one- or two-byte group. Models the encoding that
`FileReader.readAsDataURL` applies to the file's bytes. -/
def base64EncodeChunks : List Nat → List Char
  | [] => []
  | [b1] => [b64Char (b1 / 4), b64Char (b1 % 4 * 16), '=', '=']
  | [b1, b2] => [b64Char (b1 / 4), b64Char (b1 % 4 * 16 + b2 / 16), b64Char (b2 % 16 * 4), '=']
  | b1 :: b2 :: b3 :: rest =>
      b64Char (b1 / 4) :: b64Char (b1 % 4 * 16 + b2 / 16) ::
      b64Char (b2 % 16 * 4 + b3 / 64) :: b64Char (b3 % 64) :: base64EncodeChunks rest

/-- Standard base64 decoding, inverse to `base64EncodeChunks`; used to state
the round-trip law of the spec ("whose encoded data, when decoded,
reproduces the original bytes exactly"). -/
def base64DecodeChunks : List Char → Option (List Nat)
  | [] => some []
  | c1 :: c2 :: c3 :: c4 :: rest =>
    match b64Index c1, b64Index c2 with
    | some n1, some n2 =>
      if c3 = '=' then
        if c4 = '=' ∧ rest = [] then some [n1 * 4 + n2 / 16] else none
      else
        match b64Index c3 with
        | some n3 =>
          if c4 = '=' then
            if rest = [] then some [n1 * 4 + n2 / 16, n2 % 16 * 16 + n3 / 4] else none
          else
            match b64Index c4, base64DecodeChunks rest with
            | some n4, some tail =>
                some ((n1 * 4 + n2 / 16) :: (n2 % 16 * 16 + n3 / 4) :: (n3 % 4 * 64 + n4) :: tail)
            | _, _ => none
        | none => none
    | _, _ => none
  | _ => none

/-- Model of JavaScript `String.prototype.split` with a one-character
separator, as used in `reader.result.split(",")`: every occurrence of the
separator splits, and the result is never empty. -/
def jsSplit (sep : Char) : List Char → List (List Char)
  | [] => [[]]
  | c :: rest =>
    if c = sep then [] :: jsSplit sep rest
    else
      match jsSplit sep rest with
      | [] => [[c]]
      | h :: t => (c :: h) :: t

/-- JavaScript whitespace characters trimmed by `String.prototype.trim`
(the ASCII portion, which suffices for the texts considered here). -/
def isJsWs (c : Char) : Bool :=
  c = ' ' || c = '\t' || c = '\n' || c = '\r' || c = '\x0b' || c = '\x0c'

/-- Model of JavaScript `String.prototype.trim`: drop whitespace from both
ends, as in `response.text.trim()`. -/
def jsTrim (s : String) : String :=
  ⟨((s.data.dropWhile isJsWs).reverse.dropWhile isJsWs).reverse⟩

/-- A browser `File`: a declared MIME type (`File.type`) and contents as a
byte list. -/
structure JSFile where
  type : String
  bytes : List Nat

/-- A JavaScript error value, as thrown with `new Error(message)` or
rejected through a promise. -/
structure JSError where
  message : String
deriving DecidableEq

/-- The `inlineData` payload that `fileToGenerativePart` resolves with:
`{ inlineData: { mimeType: file.type, data: base64EncodedData } }`. -/
structure InlineData where
  mimeType : String
  data : List Char

/-- Outcome of the `FileReader` read in `fileToGenerativePart`:
the read completes with the data-URL string (`success`), completes with a
non-string `reader.result` (`nonString`, the failing `typeof` check), or
errors (`failure`, the `reader.onerror` path). -/
inductive ReadResult where
  | success
  | nonString
  | failure (e : JSError)

/-- The data URL produced by `FileReader.readAsDataURL` on a file:
`data:<mime>;base64,<base64 of the bytes>`. -/
def readAsDataURL (file : JSFile) : List Char :=
  ("data:".data ++ file.type.data ++ ";base64".data) ++ ',' :: base64EncodeChunks file.bytes

/-- Embedding of `fileToGenerativePart` (services/geminiService.ts:10-31):
on a successful string read, the data-URL prefix is split away at the comma
(`reader.result.split(",")[1]`) and the payload pairs the file's declared
type with the base64 body; a non-string result rejects with the fixed
message, and a read error rejects with that error. -/
def fileToGenerativePart (read : ReadResult) (file : JSFile) : Except JSError InlineData :=
  match read with
  | .failure e => .error e
  | .nonString => .error ⟨"Failed to read file as base64 string."⟩
  | .success =>
      .ok { mimeType := file.type, data := (jsSplit ',' (readAsDataURL file)).getD 1 [] }

/-- The payload `fileToGenerativePart` resolves with on a successful read. -/
def encodedPayload (file : JSFile) : InlineData :=
  { mimeType := file.type, data := (jsSplit ',' (readAsDataURL file)).getD 1 [] }

/-- A JSON value, as produced by `JSON.parse`. Numbers are modelled as
integers, which is enough for the behaviour of this client: it never
inspects a parsed number. -/
inductive Json where
  | null
  | bool (b : Bool)
  | num (n : Int)
  | str (s : String)
  | arr (elems : List Json)
  | obj (fields : List (String × Json))

/-- Whether a parsed JSON value is an object carrying a field of the given
name; used to state that the client performs no structural validation. -/
def Json.hasField (j : Json) (name : String) : Bool :=
  match j with
  | .obj fields => fields.any (fun f => f.1 == name)
  | _ => false

mutual

/-- A `@google/genai` response-schema node, as built in the `responseSchema`
literal: `STRING`, `NUMBER`, `ARRAY` with an `items` schema, or `OBJECT`
with named `properties`; each node may carry a `description`. -/
inductive Schema where
  | string (description : Option String)
  | number (description : Option String)
  | array (items : Schema) (description : Option String)
  | object (properties : SchemaProps) (description : Option String)

/-- The ordered `properties` map of an `OBJECT` schema node. -/
inductive SchemaProps where
  | nil
  | cons (name : String) (s : Schema) (rest : SchemaProps)

end

mutual

/-- A pure structural shape: a schema with the descriptions erased, keeping
exactly the field names and types. -/
inductive JShape where
  | string
  | number
  | array (items : JShape)
  | object (props : JProps)

/-- The ordered field list of an object shape. -/
inductive JProps where
  | nil
  | cons (name : String) (s : JShape) (rest : JProps)

end

mutual

/-- Erase the descriptions of a schema, leaving its structural shape. -/
def Schema.shape : Schema → JShape
  | .string _ => .string
  | .number _ => .number
  | .array items _ => .array items.shape
  | .object properties _ => .object properties.shapes

/-- Erase the descriptions of an ordered property list. -/
def SchemaProps.shapes : SchemaProps → JProps
  | .nil => .nil
  | .cons name s rest => .cons name s.shape rest.shapes

end

/-- The per-fighter sub-schema of the `responseSchema` literal
(services/geminiService.ts:74-94), shared verbatim between
`fighterAnalysis` and `opponentAnalysis` up to the object description. -/
def fighterProfileProps : SchemaProps :=
  .cons "strengths" (.array (.string none) (some "List of strengths."))
    (.cons "fightingPattern" (.array (.string none) (some "List of fighting patterns."))
      (.cons "fightingHabits" (.array (.string none) (some "List of fighting habits."))
        (.cons "weaknesses" (.array (.string none) (some "List of weaknesses."))
          (.cons "fightingStyle" (.string (some "Description of fighting style."))
            .nil))))

/-- Embedding of the `responseSchema` literal of `analyzeFights`
(services/geminiService.ts:71-114), including the interpolated
descriptions. -/
def responseSchema (fighterName opponentName : String) : Schema :=
  .object
    (.cons "fighterAnalysis"
        (.object fighterProfileProps (some ("Analysis for " ++ (fighterName ++ "."))))
      (.cons "opponentAnalysis"
          (.object fighterProfileProps (some ("Analysis for " ++ (opponentName ++ "."))))
        (.cons "headToHead"
            (.object
              (.cons "prediction" (.string (some "Prediction for the fight outcome."))
                (.cons "confidence"
                  (.number (some "Confidence score in the prediction, from 0 to 100.")) .nil))
              (some "Head-to-head comparison and prediction."))
          (.cons "recommendedGamePlan"
              (.object
                (.cons "strategy" (.string (some "Overall strategy for the fighter."))
                  (.cons "keyTactics" (.array (.string none) (some "Specific tactics to employ."))
                    (.cons "drills"
                      (.array (.string none) (some "Drills to practice for preparation.")) .nil)))
                (some ("Recommended game plan for " ++ (fighterName ++ "."))))
            .nil))))
    none

/-- The Analysis Result shape declared by the spec's data model (§3): four
substructures — two fighter profiles, a head-to-head, and a game plan —
with exactly the stated field names and types. Fields of a JSON object are
unordered in the spec's data model; they are listed here in the source
order so that shapes compare by plain equality. -/
def specFighterProfileShape : JProps :=
  .cons "strengths" (.array .string)
    (.cons "fightingPattern" (.array .string)
      (.cons "fightingHabits" (.array .string)
        (.cons "weaknesses" (.array .string)
          (.cons "fightingStyle" .string .nil))))

/-- The full Analysis Result shape of the spec's data model (§3). -/
def specAnalysisResultShape : JShape :=
  .object
    (.cons "fighterAnalysis" (.object specFighterProfileShape)
      (.cons "opponentAnalysis" (.object specFighterProfileShape)
        (.cons "headToHead"
            (.object (.cons "prediction" .string (.cons "confidence" .number .nil)))
          (.cons "recommendedGamePlan"
              (.object (.cons "strategy" .string
                (.cons "keyTactics" (.array .string)
                  (.cons "drills" (.array .string) .nil))))
            .nil))))

/-- Literal prompt segment before the first `${fighterName}`. -/
def promptSeg1 : String :=
  "\n    You are an expert MMA analyst and coach. Analyze the two fighters based on the provided videos.\n\n    Fighter 1: "

/-- Literal prompt segment between `${fighterName}` and `${opponentName}`. -/
def promptSeg2 : String := "\n    Fighter 2: "

/-- Literal prompt segment before `${weightClass}`. -/
def promptSeg3 : String := "\n    Weight Class: "

/-- Literal prompt segment before the second `${fighterName}`. -/
def promptSeg4 : String :=
  "\n\n    Please provide a detailed analysis covering:\n    1. For "

/-- Literal prompt segment before the second `${opponentName}`. -/
def promptSeg5 : String :=
  ": A list of strengths, a list of weaknesses, a list of fighting patterns and habits with excruciating details and a description of their fighting style.\n    2. For "

/-- Literal prompt segment before the third `${fighterName}`. -/
def promptSeg6 : String :=
  ": A list of strengths, a list of weaknesses, a list of fighting patterns and habits with excruciating details and a description of their fighting style.\n    3. A head-to-head prediction with a confidence score (from 0 to 100).\n    4. A recommended game plan for "

/-- Literal prompt segment between the third `${fighterName}` and the third
`${opponentName}`. -/
def promptSeg7 : String := " to defeat "

/-- Literal trailing prompt segment. -/
def promptSeg8 : String :=
  ", including an overall strategy, a list of key tactics, and a list of specific drills to practice.\n\n    Return the analysis in a structured JSON format according to the provided schema.\n    "

/-- The instructional prompt template literal of `analyzeFights`
(services/geminiService.ts:55-69), with its three interpolated inputs. -/
def mkPrompt (fighterName opponentName weightClass : String) : String :=
  promptSeg1 ++ (fighterName ++ (promptSeg2 ++ (opponentName ++ (promptSeg3 ++ (weightClass ++
    (promptSeg4 ++ (fighterName ++ (promptSeg5 ++ (opponentName ++ (promptSeg6 ++
      (fighterName ++ (promptSeg7 ++ (opponentName ++ promptSeg8)))))))))))))

/-- The text part labelling the first fighter's video. -/
def fighterVideoLabel (fighterName : String) : String :=
  "\n\nFighter Video (" ++ (fighterName ++ "):")

/-- The text part labelling the opponent's video. -/
def opponentVideoLabel (opponentName : String) : String :=
  "\n\nOpponent Video (" ++ (opponentName ++ "):")

/-- One part of the `contents.parts` array of the provider request: a text
part or an inline-data media part. -/
inductive ContentPart where
  | text (s : String)
  | inlineData (d : InlineData)

/-- The single provider request issued by `analyzeFights`
(services/geminiService.ts:117-132): model name, ordered content parts, and
the response configuration. -/
structure GenRequest where
  model : String
  parts : List ContentPart
  responseMimeType : String
  responseSchema : Schema

/-- The provider response object; the client reads only its `text`. -/
structure ProviderResponse where
  text : String

/-- Outcome of the awaited `ai.models.generateContent` call: it resolves
with a response or throws. -/
inductive CallOutcome where
  | ok (response : ProviderResponse)
  | throws (e : JSError)

/-- The ambient browser environment of one `analyzeFights` run: the two
file-read outcomes, the provider-call outcome, and the platform `JSON.parse`
(returning the parsed value or the parse-error message). -/
structure BrowserEnv where
  fighterRead : ReadResult
  opponentRead : ReadResult
  call : CallOutcome
  jsParse : String → Except String Json

/-- Observable outcome of one `analyzeFights` run: the returned value or
thrown error, the provider request that was issued (if any), and the
`console.error` log entries. -/
structure AnalyzeOutcome where
  result : Except JSError Json
  request : Option GenRequest
  consoleErrors : List (List String)

/-- The fixed user-facing message of the analysis-format failure
(services/geminiService.ts:141). -/
def analysisFormatErrorMessage : String :=
  "The analysis result from the AI was not in the expected format. Please try again."

/-- The request value passed to `generateContent`
(services/geminiService.ts:118-131): the fixed model name, the five content
parts in source order, and the JSON response configuration. -/
def buildRequest (fighterName opponentName weightClass : String)
    (fighterVideoPart opponentVideoPart : InlineData) : GenRequest :=
  { model := "gemini-2.5-flash"
    parts := [ .text (mkPrompt fighterName opponentName weightClass),
               .text (fighterVideoLabel fighterName),
               .inlineData fighterVideoPart,
               .text (opponentVideoLabel opponentName),
               .inlineData opponentVideoPart ]
    responseMimeType := "application/json"
    responseSchema := responseSchema fighterName opponentName }

/-- Embedding of `analyzeFights` (services/geminiService.ts:41-142): encode
the fighter video, then the opponent video, propagating an encoding failure
unchanged with no request issued; issue the single provider request;
propagate a provider throw unchanged; otherwise trim the response text and
`JSON.parse` it, returning the parsed value on success, and on parse
failure log the offending text and error and throw the fixed-message
format error. -/
def analyzeFights (env : BrowserEnv) (fighterName opponentName weightClass : String)
    (fighterVideo opponentVideo : JSFile) : AnalyzeOutcome :=
  match fileToGenerativePart env.fighterRead fighterVideo with
  | .error e => { result := .error e, request := none, consoleErrors := [] }
  | .ok fighterVideoPart =>
    match fileToGenerativePart env.opponentRead opponentVideo with
    | .error e => { result := .error e, request := none, consoleErrors := [] }
    | .ok opponentVideoPart =>
      let req := buildRequest fighterName opponentName weightClass
        fighterVideoPart opponentVideoPart
      match env.call with
      | .throws e => { result := .error e, request := some req, consoleErrors := [] }
      | .ok response =>
        let jsonString := jsTrim response.text
        match env.jsParse jsonString with
        | .ok parsedResult =>
            { result := .ok parsedResult, request := some req, consoleErrors := [] }
        | .error e =>
            { result := .error ⟨analysisFormatErrorMessage⟩
              request := some req
              consoleErrors := [["Failed to parse JSON response from Gemini:", jsonString, e]] }

/-- String containment: `sub` occurs verbatim inside `hay`. -/
def containsStr (hay sub : String) : Prop := ∃ p q, hay = p ++ (sub ++ q)

/-- A concrete sample file used to instantiate the theorems. -/
def sampleFile : JSFile := { type := "video/mp4", bytes := [0, 1, 2, 77, 250, 255] }

/-- A concrete parsed JSON object with no `headToHead` field. -/
def sampleJson : Json := .obj [("a", .num 1)]

/-- A concrete instance of the platform `JSON.parse`, evaluated in the
theorems only at the object text it recognises (on which real `JSON.parse`
succeeds with exactly this value). -/
def sampleParse : String → Except String Json :=
  fun s => if s = "\x7b\"a\":1\x7d" then .ok sampleJson else .error "SyntaxError: Unexpected token"

/-- An environment whose provider call succeeds with a parseable object. -/
def envOk : BrowserEnv :=
  { fighterRead := .success
    opponentRead := .success
    call := .ok { text := " \x7b\"a\":1\x7d " }
    jsParse := sampleParse }

/-- An environment whose provider responds with unparseable text. -/
def envParseFail : BrowserEnv :=
  { fighterRead := .success
    opponentRead := .success
    call := .ok { text := "not json" }
    jsParse := fun _ => .error "SyntaxError: Unexpected token o in JSON at position 1" }

/-- An environment whose provider call throws. -/
def envThrows : BrowserEnv :=
  { fighterRead := .success
    opponentRead := .success
    call := .throws { message := "fetch failed" }
    jsParse := fun _ => .error "unreached" }

/-- An environment whose first file read errors. -/
def envReadFail : BrowserEnv :=
  { fighterRead := .failure { message := "read aborted" }
    opponentRead := .success
    call := .throws { message := "unreached" }
    jsParse := fun _ => .error "unreached" }

/-- An instance of the platform `JSON.parse` recognising the empty-object
text (on which real `JSON.parse` succeeds with the empty object). -/
def emptyObjParse : String → Except String Json :=
  fun s => if s = "\x7b\x7d" then .ok (.obj []) else .error "SyntaxError: Unexpected end of JSON input"

/-- An environment whose provider responds with the valid JSON text of an
empty object, which is missing every required field of the Analysis Result
shape. -/
def envEmptyObj : BrowserEnv :=
  { fighterRead := .success
    opponentRead := .success
    call := .ok { text := "\x7b\x7d" }
    jsParse := emptyObjParse }

/-- Looking up an alphabet character recovers its 6-bit index. -/
theorem b64Index_b64Char {n : Nat} (h : n < 64) : b64Index (b64Char n) = some n := by
  have hh : ∀ m, m < 64 → b64Index (b64Char m) = some m := by decide
  exact hh n h

/-- No alphabet character is the padding character. -/
theorem b64Char_ne_eq (n : Nat) : b64Char n ≠ '=' := by
  by_cases h : n < 64
  · have hh : ∀ m, m < 64 → b64Char m ≠ '=' := by decide
    exact hh n h
  · unfold b64Char
    rw [List.getD_eq_default]
    · decide
    · have hl : b64Alpha.length = 64 := rfl
      omega

/-- No alphabet character is a comma. -/
theorem b64Char_ne_comma (n : Nat) : b64Char n ≠ ',' := by
  by_cases h : n < 64
  · have hh : ∀ m, m < 64 → b64Char m ≠ ',' := by decide
    exact hh n h
  · unfold b64Char
    rw [List.getD_eq_default]
    · decide
    · have hl : b64Alpha.length = 64 := rfl
      omega

/-- Base64 decoding inverts base64 encoding on byte lists. -/
theorem base64_roundtrip (bs : List Nat) (hb : ∀ b ∈ bs, b < 256) :
    base64DecodeChunks (base64EncodeChunks bs) = some bs := by
  induction bs using base64EncodeChunks.induct with
  | case1 => rfl
  | case2 b1 =>
    have h1 : b1 < 256 := hb b1 (by simp)
    simp only [base64EncodeChunks, base64DecodeChunks,
      b64Index_b64Char (show b1 / 4 < 64 by omega),
      b64Index_b64Char (show b1 % 4 * 16 < 64 by omega)]
    simp only [if_true, and_self, Option.some.injEq, List.cons.injEq, and_true]
    omega
  | case3 b1 b2 =>
    have h1 : b1 < 256 := hb b1 (by simp)
    have h2 : b2 < 256 := hb b2 (by simp)
    simp only [base64EncodeChunks, base64DecodeChunks,
      b64Index_b64Char (show b1 / 4 < 64 by omega),
      b64Index_b64Char (show b1 % 4 * 16 + b2 / 16 < 64 by omega),
      b64Index_b64Char (show b2 % 16 * 4 < 64 by omega)]
    rw [if_neg (b64Char_ne_eq _)]
    simp only [if_true, Option.some.injEq, List.cons.injEq, and_true]
    omega
  | case4 b1 b2 b3 rest ih =>
    have h1 : b1 < 256 := hb b1 (by simp)
    have h2 : b2 < 256 := hb b2 (by simp)
    have h3 : b3 < 256 := hb b3 (by simp)
    have hrest : ∀ b ∈ rest, b < 256 := fun b hbm => hb b (by simp [hbm])
    simp only [base64EncodeChunks, base64DecodeChunks,
      b64Index_b64Char (show b1 / 4 < 64 by omega),
      b64Index_b64Char (show b1 % 4 * 16 + b2 / 16 < 64 by omega),
      b64Index_b64Char (show b2 % 16 * 4 + b3 / 64 < 64 by omega),
      b64Index_b64Char (show b3 % 64 < 64 by omega)]
    rw [if_neg (b64Char_ne_eq _), if_neg (b64Char_ne_eq _), ih hrest]
    simp only [Option.some.injEq, List.cons.injEq, and_true]
    omega

/-- Base64 output never contains a comma, so the data-URL split leaves the
encoded body intact. -/
theorem encode_no_comma (bs : List Nat) : ',' ∉ base64EncodeChunks bs := by
  induction bs using base64EncodeChunks.induct with
  | case1 => simp [base64EncodeChunks]
  | case2 b1 =>
    simp only [base64EncodeChunks, List.mem_cons, List.not_mem_nil, or_false]
    push_neg
    exact ⟨(b64Char_ne_comma _).symm, (b64Char_ne_comma _).symm, by decide, by decide⟩
  | case3 b1 b2 =>
    simp only [base64EncodeChunks, List.mem_cons, List.not_mem_nil, or_false]
    push_neg
    exact ⟨(b64Char_ne_comma _).symm, (b64Char_ne_comma _).symm, (b64Char_ne_comma _).symm,
      by decide⟩
  | case4 b1 b2 b3 rest ih =>
    simp only [base64EncodeChunks, List.mem_cons]
    push_neg
    exact ⟨(b64Char_ne_comma _).symm, (b64Char_ne_comma _).symm, (b64Char_ne_comma _).symm,
      (b64Char_ne_comma _).symm, ih⟩

/-- Splitting a separator-free list does not split. -/
theorem jsSplit_no_sep (sep : Char) (s : List Char) (h : sep ∉ s) : jsSplit sep s = [s] := by
  induction s with
  | nil => rfl
  | cons c rest ih =>
    have hc : c ≠ sep := fun hcs => h (by simp [hcs])
    have hrest : sep ∉ rest := fun hm => h (by simp [hm])
    simp only [jsSplit, if_neg hc, ih hrest]

/-- Splitting a list with exactly one separator yields its two sides. -/
theorem jsSplit_before_sep (sep : Char) (p s : List Char) (hp : sep ∉ p) (hs : sep ∉ s) :
    jsSplit sep (p ++ sep :: s) = [p, s] := by
  induction p with
  | nil => simp [jsSplit, jsSplit_no_sep sep s hs]
  | cons c rest ih =>
    have hc : c ≠ sep := fun hcs => hp (by simp [hcs])
    have hrest : sep ∉ rest := fun hm => hp (by simp [hm])
    simp [jsSplit, if_neg hc, ih hrest]

/-- For a comma-free MIME type, taking index 1 of the comma-split data URL
recovers exactly the base64 body. -/
theorem split_dataURL (f : JSFile) (ht : ',' ∉ f.type.data) :
    (jsSplit ',' (readAsDataURL f)).getD 1 [] = base64EncodeChunks f.bytes := by
  have hpre : ',' ∉ "data:".data ++ f.type.data ++ ";base64".data := by
    intro hm
    rcases List.mem_append.mp hm with hm1 | hm2
    · rcases List.mem_append.mp hm1 with hm3 | hm4
      · revert hm3; decide
      · exact ht hm4
    · revert hm2; decide
  rw [readAsDataURL, jsSplit_before_sep ',' _ _ hpre (encode_no_comma f.bytes)]
  rfl

/-- When both encodings succeed, `analyzeFights` issues exactly the request
built from its inputs and the two payloads, whatever the call outcome. -/
theorem analyzeFights_request_some (env : BrowserEnv) (f o w : String) (v1 v2 : JSFile)
    (p1 p2 : InlineData)
    (h1 : fileToGenerativePart env.fighterRead v1 = .ok p1)
    (h2 : fileToGenerativePart env.opponentRead v2 = .ok p2) :
    (analyzeFights env f o w v1 v2).request = some (buildRequest f o w p1 p2) := by
  unfold analyzeFights
  rw [h1, h2]
  cases env.call with
  | throws e => rfl
  | ok resp => cases henv : env.jsParse (jsTrim resp.text) <;> simp only [henv]

/-- C5: for every pair of video files and arbitrary (including empty)
fighterName, opponentName and weightClass strings, the instructional prompt
text that `analyzeFights` sends to the provider (its first content part)
contains both supplied names verbatim and the supplied weight-class label
verbatim — in particular whenever they are non-empty. -/
theorem analyze_prompt_contains_inputs (env : BrowserEnv)
    (fighterName opponentName weightClass : String) (v1 v2 : JSFile)
    (h1 : env.fighterRead = ReadResult.success) (h2 : env.opponentRead = ReadResult.success) :
    ∃ r, (analyzeFights env fighterName opponentName weightClass v1 v2).request = some r ∧
      r.parts.head? =
        some (ContentPart.text (mkPrompt fighterName opponentName weightClass)) ∧
      containsStr (mkPrompt fighterName opponentName weightClass) fighterName ∧
      containsStr (mkPrompt fighterName opponentName weightClass) opponentName ∧
      containsStr (mkPrompt fighterName opponentName weightClass) weightClass := by
  refine ⟨_, analyzeFights_request_some env fighterName opponentName weightClass v1 v2
    (encodedPayload v1) (encodedPayload v2) (by rw [h1]; rfl) (by rw [h2]; rfl),
    rfl, ⟨promptSeg1, _, rfl⟩, ?_, ?_⟩
  · exact ⟨promptSeg1 ++ (fighterName ++ promptSeg2),
      promptSeg3 ++ (weightClass ++ (promptSeg4 ++ (fighterName ++ (promptSeg5 ++
        (opponentName ++ (promptSeg6 ++ (fighterName ++ (promptSeg7 ++
          (opponentName ++ promptSeg8))))))))),
      by simp [mkPrompt, String.append_assoc]⟩
  · exact ⟨promptSeg1 ++ (fighterName ++ (promptSeg2 ++ (opponentName ++ promptSeg3))),
      promptSeg4 ++ (fighterName ++ (promptSeg5 ++ (opponentName ++ (promptSeg6 ++
        (fighterName ++ (promptSeg7 ++ (opponentName ++ promptSeg8))))))),
      by simp [mkPrompt, String.append_assoc]⟩

/-- Witness for C5 at concrete inputs. -/
theorem analyze_prompt_contains_inputs_witness :
    ∃ r, (analyzeFights envOk "Jones" "Smith" "Heavyweight (265 lbs)"
        sampleFile sampleFile).request = some r ∧
      r.parts.head? = some (ContentPart.text (mkPrompt "Jones" "Smith" "Heavyweight (265 lbs)")) ∧
      containsStr (mkPrompt "Jones" "Smith" "Heavyweight (265 lbs)") "Jones" ∧
      containsStr (mkPrompt "Jones" "Smith" "Heavyweight (265 lbs)") "Smith" ∧
      containsStr (mkPrompt "Jones" "Smith" "Heavyweight (265 lbs)") "Heavyweight (265 lbs)" :=
  analyze_prompt_contains_inputs envOk "Jones" "Smith" "Heavyweight (265 lbs)"
    sampleFile sampleFile rfl rfl

/-- C9: the response-schema declaration attached to every issued request,
with its descriptions erased, is exactly the four-substructure Analysis
Result shape of the data model — two fighter profiles, a head-to-head of a
string prediction and a numeric confidence, and a game plan — with exactly
those field names and types, and it is attached with the JSON response
MIME type. -/
theorem analyze_schema_matches_spec (env : BrowserEnv)
    (fighterName opponentName weightClass : String) (v1 v2 : JSFile)
    (h1 : env.fighterRead = ReadResult.success) (h2 : env.opponentRead = ReadResult.success) :
    ∃ r, (analyzeFights env fighterName opponentName weightClass v1 v2).request = some r ∧
      r.responseMimeType = "application/json" ∧
      r.responseSchema = responseSchema fighterName opponentName ∧
      r.responseSchema.shape = specAnalysisResultShape :=
  ⟨_, analyzeFights_request_some env fighterName opponentName weightClass v1 v2
    (encodedPayload v1) (encodedPayload v2) (by rw [h1]; rfl) (by rw [h2]; rfl),
    rfl, rfl, rfl⟩

/-- Witness for C9 at concrete inputs. -/
theorem analyze_schema_matches_spec_witness :
    ∃ r, (analyzeFights envOk "Jones" "Smith" "Heavyweight (265 lbs)"
        sampleFile sampleFile).request = some r ∧
      r.responseMimeType = "application/json" ∧
      r.responseSchema = responseSchema "Jones" "Smith" ∧
      r.responseSchema.shape = specAnalysisResultShape :=
  analyze_schema_matches_spec envOk "Jones" "Smith" "Heavyweight (265 lbs)"
    sampleFile sampleFile rfl rfl

/-- C10: every issued request uses the model `gemini-2.5-flash` and carries
exactly five content parts in a fixed order — the instructional prompt, the
fighter-video label, the first fighter's encoded payload, the
opponent-video label, and the opponent's encoded payload — so the
first-named fighter's video always precedes the opponent's. -/
theorem analyze_request_model_and_parts (env : BrowserEnv)
    (fighterName opponentName weightClass : String) (v1 v2 : JSFile) (p1 p2 : InlineData)
    (h1 : fileToGenerativePart env.fighterRead v1 = .ok p1)
    (h2 : fileToGenerativePart env.opponentRead v2 = .ok p2) :
    ∃ r, (analyzeFights env fighterName opponentName weightClass v1 v2).request = some r ∧
      r.model = "gemini-2.5-flash" ∧
      r.parts = [ ContentPart.text (mkPrompt fighterName opponentName weightClass),
                  ContentPart.text (fighterVideoLabel fighterName),
                  ContentPart.inlineData p1,
                  ContentPart.text (opponentVideoLabel opponentName),
                  ContentPart.inlineData p2 ] :=
  ⟨_, analyzeFights_request_some env fighterName opponentName weightClass v1 v2 p1 p2 h1 h2,
    rfl, rfl⟩

/-- Witness for C10 at concrete inputs. -/
theorem analyze_request_model_and_parts_witness :
    ∃ r, (analyzeFights envOk "Jones" "Smith" "Heavyweight (265 lbs)"
        sampleFile sampleFile).request = some r ∧
      r.model = "gemini-2.5-flash" ∧
      r.parts = [ ContentPart.text (mkPrompt "Jones" "Smith" "Heavyweight (265 lbs)"),
                  ContentPart.text (fighterVideoLabel "Jones"),
                  ContentPart.inlineData (encodedPayload sampleFile),
                  ContentPart.text (opponentVideoLabel "Smith"),
                  ContentPart.inlineData (encodedPayload sampleFile) ] :=
  analyze_request_model_and_parts envOk "Jones" "Smith" "Heavyweight (265 lbs)"
    sampleFile sampleFile _ _ rfl rfl

/-- C2: for every input file (bytes in range, MIME type comma-free as every
valid MIME type is), the payload produced by the Encoder has a `mimeType`
exactly equal to the file's declared type, and base64-decoding its `data`
field reproduces the file's original bytes exactly (round-trip law). -/
theorem encoder_mime_and_roundtrip (f : JSFile)
    (hb : ∀ b ∈ f.bytes, b < 256) (ht : ',' ∉ f.type.data) :
    ∃ p, fileToGenerativePart ReadResult.success f = .ok p ∧
      p.mimeType = f.type ∧ base64DecodeChunks p.data = some f.bytes := by
  refine ⟨encodedPayload f, rfl, rfl, ?_⟩
  show base64DecodeChunks ((jsSplit ',' (readAsDataURL f)).getD 1 []) = some f.bytes
  rw [split_dataURL f ht, base64_roundtrip f.bytes hb]

/-- Witness for C2 at a concrete file. -/
theorem encoder_mime_and_roundtrip_witness :
    ∃ p, fileToGenerativePart ReadResult.success sampleFile = .ok p ∧
      p.mimeType = sampleFile.type ∧ base64DecodeChunks p.data = some sampleFile.bytes :=
  encoder_mime_and_roundtrip sampleFile (by decide) (by decide)

/-- C7: the Encoder fails exactly when the underlying read errors or when
the read result is not a string (the expected base64-encoded text form);
the read error is propagated as-is, the non-string case rejects with the
fixed message, and in every other case the Encoder resolves with the
well-formed payload pairing the file's type with the base64 body of its
data URL. -/
theorem encoder_error_conditions (r : ReadResult) (f : JSFile) :
    ((∃ e, fileToGenerativePart r f = .error e) ↔
      r = ReadResult.nonString ∨ ∃ e, r = ReadResult.failure e) ∧
    (∀ e, fileToGenerativePart (ReadResult.failure e) f = .error e) ∧
    (fileToGenerativePart ReadResult.nonString f =
      .error ⟨"Failed to read file as base64 string."⟩) ∧
    (r = ReadResult.success → fileToGenerativePart r f = .ok (encodedPayload f)) := by
  refine ⟨?_, fun e => rfl, rfl, ?_⟩
  · cases r with
    | success =>
        constructor
        · rintro ⟨e, he⟩
          exact absurd he (by simp [fileToGenerativePart])
        · rintro (h | ⟨e, h⟩) <;> exact absurd h (by simp)
    | nonString => exact ⟨fun _ => Or.inl rfl, fun _ => ⟨_, rfl⟩⟩
    | failure e => exact ⟨fun _ => Or.inr ⟨e, rfl⟩, fun _ => ⟨e, rfl⟩⟩
  · rintro rfl
    rfl

/-- Witness for C7 at a concrete read outcome and file. -/
theorem encoder_error_conditions_witness :
    fileToGenerativePart ReadResult.success sampleFile = .ok (encodedPayload sampleFile) :=
  (encoder_error_conditions ReadResult.success sampleFile).2.2.2 rfl

/-- Reduction of `analyzeFights` when both reads succeed, the call resolves
and the response text parses. -/
theorem analyzeFights_parse_ok (env : BrowserEnv) (f o w : String) (v1 v2 : JSFile)
    (resp : ProviderResponse) (v : Json)
    (h1 : env.fighterRead = ReadResult.success) (h2 : env.opponentRead = ReadResult.success)
    (hc : env.call = CallOutcome.ok resp)
    (hp : env.jsParse (jsTrim resp.text) = Except.ok v) :
    analyzeFights env f o w v1 v2 =
      { result := Except.ok v,
        request := some (buildRequest f o w (encodedPayload v1) (encodedPayload v2)),
        consoleErrors := [] } := by
  unfold analyzeFights
  rw [h1, h2]
  simp only [fileToGenerativePart, hc, hp]
  rfl

/-- Reduction of `analyzeFights` when both reads succeed, the call resolves
and the response text does not parse. -/
theorem analyzeFights_parse_error (env : BrowserEnv) (f o w : String) (v1 v2 : JSFile)
    (resp : ProviderResponse) (perr : String)
    (h1 : env.fighterRead = ReadResult.success) (h2 : env.opponentRead = ReadResult.success)
    (hc : env.call = CallOutcome.ok resp)
    (hp : env.jsParse (jsTrim resp.text) = Except.error perr) :
    analyzeFights env f o w v1 v2 =
      { result := Except.error ⟨analysisFormatErrorMessage⟩,
        request := some (buildRequest f o w (encodedPayload v1) (encodedPayload v2)),
        consoleErrors :=
          [["Failed to parse JSON response from Gemini:", jsTrim resp.text, perr]] } := by
  unfold analyzeFights
  rw [h1, h2]
  simp only [fileToGenerativePart, hc, hp]
  rfl

/-- C3: for every provider response whose trimmed text fails to parse as
JSON, `analyzeFights` throws an error whose user-facing message is the
fixed generic string — a constant independent of the response text and of
the parser's own message — while the offending (trimmed) text and the
parse failure go only to the console log. -/
theorem analyze_parse_failure_fixed_message (env : BrowserEnv) (f o w : String)
    (v1 v2 : JSFile) (resp : ProviderResponse) (perr : String)
    (h1 : env.fighterRead = ReadResult.success) (h2 : env.opponentRead = ReadResult.success)
    (hc : env.call = CallOutcome.ok resp)
    (hp : env.jsParse (jsTrim resp.text) = Except.error perr) :
    (analyzeFights env f o w v1 v2).result = Except.error ⟨analysisFormatErrorMessage⟩ ∧
    (analyzeFights env f o w v1 v2).consoleErrors =
      [["Failed to parse JSON response from Gemini:", jsTrim resp.text, perr]] := by
  rw [analyzeFights_parse_error env f o w v1 v2 resp perr h1 h2 hc hp]
  exact ⟨rfl, rfl⟩

/-- Witness for C3 at a concrete unparseable response. -/
theorem analyze_parse_failure_fixed_message_witness :
    (analyzeFights envParseFail "Jones" "Smith" "Heavyweight (265 lbs)"
        sampleFile sampleFile).result = Except.error ⟨analysisFormatErrorMessage⟩ ∧
    (analyzeFights envParseFail "Jones" "Smith" "Heavyweight (265 lbs)"
        sampleFile sampleFile).consoleErrors =
      [["Failed to parse JSON response from Gemini:", jsTrim "not json",
        "SyntaxError: Unexpected token o in JSON at position 1"]] :=
  analyze_parse_failure_fixed_message envParseFail "Jones" "Smith" "Heavyweight (265 lbs)"
    sampleFile sampleFile { text := "not json" }
    "SyntaxError: Unexpected token o in JSON at position 1" rfl rfl rfl rfl

/-- C4: if the provider call throws, `analyzeFights` propagates exactly
that error to its caller, unaltered and unwrapped; the model performs the
single call with no retry and no fallback. -/
theorem analyze_provider_error_propagated (env : BrowserEnv) (f o w : String)
    (v1 v2 : JSFile) (e : JSError)
    (h1 : env.fighterRead = ReadResult.success) (h2 : env.opponentRead = ReadResult.success)
    (hc : env.call = CallOutcome.throws e) :
    (analyzeFights env f o w v1 v2).result = Except.error e := by
  unfold analyzeFights
  rw [h1, h2]
  simp only [fileToGenerativePart, hc]

/-- Witness for C4 at a concrete throwing call. -/
theorem analyze_provider_error_propagated_witness :
    (analyzeFights envThrows "Jones" "Smith" "Heavyweight (265 lbs)"
        sampleFile sampleFile).result = Except.error ⟨"fetch failed"⟩ :=
  analyze_provider_error_propagated envThrows "Jones" "Smith" "Heavyweight (265 lbs)"
    sampleFile sampleFile ⟨"fetch failed"⟩ rfl rfl rfl

/-- C6: if encoding either video fails, `analyzeFights` propagates that
encoding failure unchanged and no provider request is ever issued. -/
theorem analyze_encoding_failure_no_request (env : BrowserEnv) (f o w : String)
    (v1 v2 : JSFile) (e : JSError) :
    (fileToGenerativePart env.fighterRead v1 = .error e →
      (analyzeFights env f o w v1 v2).result = Except.error e ∧
      (analyzeFights env f o w v1 v2).request = none) ∧
    ((∃ p, fileToGenerativePart env.fighterRead v1 = .ok p) →
      fileToGenerativePart env.opponentRead v2 = .error e →
      (analyzeFights env f o w v1 v2).result = Except.error e ∧
      (analyzeFights env f o w v1 v2).request = none) := by
  constructor
  · intro h
    unfold analyzeFights
    rw [h]
    exact ⟨rfl, rfl⟩
  · rintro ⟨p, hp⟩ h
    unfold analyzeFights
    rw [hp, h]
    exact ⟨rfl, rfl⟩

/-- Witness for C6 at a concrete failing read. -/
theorem analyze_encoding_failure_no_request_witness :
    (analyzeFights envReadFail "Jones" "Smith" "Heavyweight (265 lbs)"
        sampleFile sampleFile).result = Except.error ⟨"read aborted"⟩ ∧
    (analyzeFights envReadFail "Jones" "Smith" "Heavyweight (265 lbs)"
        sampleFile sampleFile).request = none :=
  (analyze_encoding_failure_no_request envReadFail "Jones" "Smith" "Heavyweight (265 lbs)"
    sampleFile sampleFile ⟨"read aborted"⟩).1 rfl

/-- C8: on every successful completion, the Analysis Result returned by
`analyzeFights` is exactly the value obtained by JSON-parsing the trimmed
provider response text — no other transformation is applied. -/
theorem analyze_returns_parsed_value (env : BrowserEnv) (f o w : String)
    (v1 v2 : JSFile) (resp : ProviderResponse) (v : Json)
    (h1 : env.fighterRead = ReadResult.success) (h2 : env.opponentRead = ReadResult.success)
    (hc : env.call = CallOutcome.ok resp)
    (hp : env.jsParse (jsTrim resp.text) = Except.ok v) :
    (analyzeFights env f o w v1 v2).result = Except.ok v := by
  rw [analyzeFights_parse_ok env f o w v1 v2 resp v h1 h2 hc hp]

/-- Witness for C8 at a concrete parseable response. -/
theorem analyze_returns_parsed_value_witness :
    (analyzeFights envOk "Jones" "Smith" "Heavyweight (265 lbs)"
        sampleFile sampleFile).result = Except.ok sampleJson :=
  analyze_returns_parsed_value envOk "Jones" "Smith" "Heavyweight (265 lbs)"
    sampleFile sampleFile { text := " \x7b\"a\":1\x7d " } sampleJson rfl rfl rfl rfl

/-- Counterexample to C1: when the provider responds with the valid JSON
text of an empty object — which lacks every required field of the Analysis
Result shape, in particular `headToHead` — `analyzeFights` does not fail
with the format error: it returns the partially-populated (empty) object
to the caller, because `JSON.parse` succeeds and the result is only cast,
never validated, before being returned. -/
theorem analyze_missing_field_returned_cex :
    (analyzeFights envEmptyObj "Jones" "Smith" "Heavyweight (265 lbs)"
        sampleFile sampleFile).result = Except.ok (Json.obj []) ∧
    (Json.obj []).hasField "headToHead" = false ∧
    (analyzeFights envEmptyObj "Jones" "Smith" "Heavyweight (265 lbs)"
        sampleFile sampleFile).result ≠ Except.error ⟨analysisFormatErrorMessage⟩ := by
  refine ⟨rfl, rfl, ?_⟩
  intro h
  rw [show (analyzeFights envEmptyObj "Jones" "Smith" "Heavyweight (265 lbs)"
    sampleFile sampleFile).result = Except.ok (Json.obj []) from rfl] at h
  exact absurd h (by simp)

/-- C1 (amended): whenever the trimmed provider response text parses as
JSON, `analyzeFights` returns the parsed value unchanged and without any
structural validation — even when the parsed object is missing required
fields of the Analysis Result shape such as `headToHead` — and in that
case it does not throw the format error; the format error arises only when
parsing fails. -/
theorem analyze_no_structural_validation (env : BrowserEnv) (f o w : String)
    (v1 v2 : JSFile) (resp : ProviderResponse) (v : Json)
    (h1 : env.fighterRead = ReadResult.success) (h2 : env.opponentRead = ReadResult.success)
    (hc : env.call = CallOutcome.ok resp)
    (hp : env.jsParse (jsTrim resp.text) = Except.ok v)
    (_hmiss : v.hasField "headToHead" = false) :
    (analyzeFights env f o w v1 v2).result = Except.ok v ∧
    (analyzeFights env f o w v1 v2).result ≠ Except.error ⟨analysisFormatErrorMessage⟩ := by
  rw [analyzeFights_parse_ok env f o w v1 v2 resp v h1 h2 hc hp]
  exact ⟨rfl, by simp⟩

/-- Witness for the amended C1 at the concrete empty-object response. -/
theorem analyze_no_structural_validation_witness :
    (analyzeFights envEmptyObj "Jones" "Smith" "Heavyweight (265 lbs)"
        sampleFile sampleFile).result = Except.ok (Json.obj []) ∧
    (analyzeFights envEmptyObj "Jones" "Smith" "Heavyweight (265 lbs)"
        sampleFile sampleFile).result ≠ Except.error ⟨analysisFormatErrorMessage⟩ :=
  analyze_no_structural_validation envEmptyObj "Jones" "Smith" "Heavyweight (265 lbs)"
    sampleFile sampleFile { text := "\x7b\x7d" } (Json.obj []) rfl rfl rfl rfl rfl
